import Mathlib

/-!
# Verification of the coco-pik group-invitation backend

Shallow embedding of the TypeScript Cloudflare-worker backend
(`src/index.ts`, plus the variant carrying the `GET /g/:code` HTML
landing page).  The relational store (tables `User`, `Group`,
`GroupMember`) is modelled as explicit lists with fresh-id counters;
each HTTP handler becomes a pure function from the database, the parsed
request and the current wall-clock time (milliseconds since the epoch,
as `Date.now()` yields) to a result carrying the updated database,
the response payload and the HTTP status.

JavaScript-specific behaviour is modelled faithfully:
* `!body.deviceToken` is true for a missing field *and* for the empty
  string (both are falsy), hence `strOptFalsy`;
* `body.expirationHours ? … : null` treats the number `0` as falsy,
  so `expirationHours = 0` stores no expiry;
* a `Date` object is always truthy, so `group.expiresAt &&` only
  tests for `null`, hence `Option`;
* `new Response(html, {headers})` without an explicit status defaults
  to HTTP 200.

`Math.random()` draws are passed in as an explicit stream of indices
into the 36-symbol alphabet, and the unbounded `do … while` allocation
loop takes a fuel argument, returning `none` when the fuel runs out.
-/

namespace CocoPik

/-- A row of the `User` table (`id`, unique `deviceToken`, optional `name`). -/
structure User where
  id : Nat
  deviceToken : String
  name : Option String
deriving Repr, DecidableEq

/-- A row of the `Group` table.  `expiresAt` is the optional expiry
timestamp in epoch milliseconds; `none` models SQL `NULL` ("never expires"). -/
structure Group where
  id : Nat
  inviteCode : String
  modelId : String
  creatorId : Nat
  title : Option String
  description : Option String
  expiresAt : Option Int
deriving Repr, DecidableEq

/-- A row of the `GroupMember` table, unique on `(userId, groupId)`. -/
structure GroupMember where
  id : Nat
  userId : Nat
  groupId : Nat
  joinedAt : Int
deriving Repr, DecidableEq

/-- The relational store: the three tables plus fresh-id counters
standing in for the id generation of the ORM (one counter per table). -/
structure DB where
  users : List User
  groups : List Group
  members : List GroupMember
  nextUserId : Nat
  nextGroupId : Nat
  nextMemberId : Nat
deriving Repr, DecidableEq

/-- JavaScript falsiness of an optional string field of a parsed JSON
body: `!body.field` is `true` when the field is absent or is `""`. -/
def strOptFalsy : Option String → Bool
  | none => true
  | some s => s.isEmpty

/-- The shared expiry rule: `group.expiresAt && group.expiresAt < new Date()`.
A `Date` object is always truthy, so the first conjunct only tests for
`null`; the comparison is strict `<` on epoch milliseconds. -/
def groupExpired (expiresAt : Option Int) (now : Int) : Bool :=
  match expiresAt with
  | none => false
  | some t => decide (t < now)

/-- The alphabet string of the generator (lowercase letters, then
digits), as a list of characters. -/
def inviteChars : List Char := "abcdefghijklmnopqrstuvwxyz0123456789".toList

theorem inviteChars_length : inviteChars.length = 36 := rfl

/-- Generation of one invite code: 8 characters, each
`chars.charAt(Math.floor(Math.random() * chars.length))`.
The value `Math.floor(Math.random() * 36)` lies in `{0, …, 35}`, so one
run of the generator is determined by a vector of eight draws in `Fin 36`. -/
def generateInviteCode (draws : Fin 8 → Fin 36) : String :=
  String.mk (List.ofFn fun i => inviteChars.get (Fin.cast inviteChars_length.symm (draws i)))

/-- One draw-vector per loop iteration: the `k`-th iteration of the
allocation loop calls `generateInviteCode` on `draws k`. -/
def DrawStream : Type := Nat → Fin 8 → Fin 36

/-- The `do { inviteCode = generateInviteCode(); … } while (!isUnique)`
allocation loop of the create-group handler.  `codes` is the set of
`inviteCode` values of the stored groups (the `findUnique` check),
`k` the index of the current iteration, `fuel` a bound on the remaining
iterations (the source loop is unbounded; `none` means the fuel ran out
before a free code was drawn). -/
def allocLoop (codes : List String) (draws : DrawStream) : Nat → Nat → Option String
  | _, 0 => none
  | k, fuel + 1 =>
    let c := generateInviteCode (draws k)
    if codes.contains c then allocLoop codes draws (k + 1) fuel else some c

/-- Identity resolution (`ensureUser`): look the device token up by its unique index; when no
row exists, insert a fresh one with no name.  Returns the (possibly
updated) database and the resolved user. -/
def ensureUser (db : DB) (deviceToken : String) : DB × User :=
  match db.users.find? (fun u => u.deviceToken == deviceToken) with
  | some u => (db, u)
  | none =>
    let u : User := { id := db.nextUserId, deviceToken := deviceToken, name := none }
    ({ db with users := db.users ++ [u], nextUserId := db.nextUserId + 1 }, u)

/-- Parsed JSON body of `POST /api/groups`.  Every field is optional at
runtime (the TypeScript interface is not enforced on raw JSON). -/
structure CreateGroupRequest where
  deviceToken : Option String
  modelId : Option String
  title : Option String
  description : Option String
  expirationHours : Option Int
deriving Repr, DecidableEq

/-- The JSON payload of a successful `POST /api/groups`. -/
structure CreateGroupResponse where
  groupId : Nat
  inviteCode : String
  modelId : String
  title : Option String
  description : Option String
  expiresAt : Option Int
  memberCount : Nat
deriving Repr, DecidableEq

/-- The expiry computation of the create handler:
`body.expirationHours ? new Date(Date.now() + body.expirationHours * 60 * 60 * 1000) : null`.
JS truthiness: an absent field and the number `0` are both falsy and
yield `null`; any other number (negative included) is used unchecked. -/
def computeExpiresAt (expirationHours : Option Int) (now : Int) : Option Int :=
  match expirationHours with
  | some h => if h == 0 then none else some (now + h * 60 * 60 * 1000)
  | none => none

/-- Outcome of the create-group handler: an error response, a success
response (with the updated database and HTTP status), or exhaustion of
the allocation-loop fuel. -/
inductive CreateResult where
  | error (db : DB) (message : String) (status : Nat)
  | success (db : DB) (resp : CreateGroupResponse) (status : Nat)
  | noFuel
deriving Repr, DecidableEq

/-- Handler of `POST /api/groups`.
Validate presence (JS truthiness) of `deviceToken` and `modelId`;
resolve the user; run the invite-code allocation loop; compute
`expiresAt` as `now + expirationHours * 3600000` when `expirationHours`
is truthy (in particular `0` is falsy and yields `null`); insert the
group row and then the membership row of the creator; answer 201 with
`memberCount: 1`. -/
def createGroup (db : DB) (req : CreateGroupRequest) (now : Int)
    (draws : DrawStream) (fuel : Nat) : CreateResult :=
  if strOptFalsy req.deviceToken || strOptFalsy req.modelId then
    .error db "deviceToken and modelId are required" 400
  else
    let db1 := (ensureUser db (req.deviceToken.getD "")).1
    let user := (ensureUser db (req.deviceToken.getD "")).2
    match allocLoop (db1.groups.map (fun g => g.inviteCode)) draws 0 fuel with
    | none => .noFuel
    | some inviteCode =>
      let expiresAt : Option Int := computeExpiresAt req.expirationHours now
      let group : Group :=
        { id := db1.nextGroupId, inviteCode := inviteCode,
          modelId := req.modelId.getD "", creatorId := user.id,
          title := req.title, description := req.description,
          expiresAt := expiresAt }
      let db2 := { db1 with groups := db1.groups ++ [group],
                            nextGroupId := db1.nextGroupId + 1 }
      let creatorRow : GroupMember :=
        { id := db2.nextMemberId, userId := user.id, groupId := group.id, joinedAt := now }
      let db3 := { db2 with members := db2.members ++ [creatorRow],
                            nextMemberId := db2.nextMemberId + 1 }
      .success db3
        { groupId := group.id, inviteCode := inviteCode,
          modelId := req.modelId.getD "", title := req.title,
          description := req.description, expiresAt := expiresAt,
          memberCount := 1 } 201

/-- The JSON payload of a successful `POST /api/groups/:code/join`. -/
structure JoinGroupResponse where
  groupId : Nat
  modelId : String
  title : Option String
  description : Option String
  memberCount : Nat
deriving Repr, DecidableEq

/-- Outcome of the join handler: every branch carries the database as
left behind by the handler (identity resolution may have inserted a
user even on an error path). -/
inductive JoinResult where
  | error (db : DB) (message : String) (status : Nat)
  | success (db : DB) (resp : JoinGroupResponse) (status : Nat)
deriving Repr, DecidableEq

/-- Database left behind by a join, whatever the outcome. -/
def JoinResult.db : JoinResult → DB
  | .error d _ _ => d
  | .success d _ _ => d

/-- HTTP status of a join outcome. -/
def JoinResult.status : JoinResult → Nat
  | .error _ _ s => s
  | .success _ _ s => s

/-- Handler of `POST /api/groups/:code/join`.
Order of checks as in the source: missing `deviceToken` → 400;
`ensureUser`; group lookup by invite code → 404; expiry → 410;
existing `(userId, groupId)` membership → 400; otherwise insert the
membership row and answer 200 with `memberCount` equal to the length of
the member list fetched together with the group (before the insert)
plus one. -/
def joinGroup (db : DB) (inviteCode : String) (deviceToken : Option String)
    (now : Int) : JoinResult :=
  if strOptFalsy deviceToken then .error db "deviceToken is required" 400
  else
    let db1 := (ensureUser db (deviceToken.getD "")).1
    let user := (ensureUser db (deviceToken.getD "")).2
    match db1.groups.find? (fun g => g.inviteCode == inviteCode) with
    | none => .error db1 "Group not found" 404
    | some group =>
      let fetchedMembers := db1.members.filter (fun m => m.groupId == group.id)
      if groupExpired group.expiresAt now then
        .error db1 "Group invitation has expired" 410
      else
        match db1.members.find? (fun m => m.userId == user.id && m.groupId == group.id) with
        | some _ => .error db1 "User is already a member of this group" 400
        | none =>
          let row : GroupMember :=
            { id := db1.nextMemberId, userId := user.id, groupId := group.id, joinedAt := now }
          let db2 := { db1 with members := db1.members ++ [row],
                                nextMemberId := db1.nextMemberId + 1 }
          .success db2
            { groupId := group.id, modelId := group.modelId,
              title := group.title, description := group.description,
              memberCount := fetchedMembers.length + 1 } 200

/-- The JSON payload of a successful `GET /api/groups/:code`. -/
structure GroupDetailsResponse where
  groupId : Nat
  inviteCode : String
  modelId : String
  title : Option String
  description : Option String
  creatorId : Nat
  expiresAt : Option Int
  memberCount : Nat
  memberIds : List Nat
deriving Repr, DecidableEq

/-- Outcome of the read-only get-details handler. -/
inductive DetailsResult where
  | error (message : String) (status : Nat)
  | success (resp : GroupDetailsResponse) (status : Nat)
deriving Repr, DecidableEq

/-- HTTP status of a get-details outcome. -/
def DetailsResult.status : DetailsResult → Nat
  | .error _ s => s
  | .success _ s => s

/-- Handler of `GET /api/groups/:code`: lookup by invite code → 404;
expiry → 410; otherwise 200 with the full projection (members included). -/
def getGroupDetails (db : DB) (inviteCode : String) (now : Int) : DetailsResult :=
  match db.groups.find? (fun g => g.inviteCode == inviteCode) with
  | none => .error "Group not found" 404
  | some group =>
    if groupExpired group.expiresAt now then
      .error "Group invitation has expired" 410
    else
      let fetchedMembers := db.members.filter (fun m => m.groupId == group.id)
      .success
        { groupId := group.id, inviteCode := group.inviteCode,
          modelId := group.modelId, title := group.title,
          description := group.description, creatorId := group.creatorId,
          expiresAt := group.expiresAt, memberCount := fetchedMembers.length,
          memberIds := fetchedMembers.map (fun m => m.userId) } 200

/-- Which HTML document `GET /g/:code` renders. -/
inductive LandingBody where
  | notFoundPage
  | expiredPage
  | groupPage (title : Option String) (description : Option String) (memberCount : Nat)
deriving Repr, DecidableEq

/-- An HTML response of the landing-page route: the rendered document
and the HTTP status it is sent with. -/
structure LandingResult where
  body : LandingBody
  status : Nat
deriving Repr, DecidableEq

/-- Handler of `GET /g/:code`: lookup by invite code, then the same
expiry check as the API routes.  All three branches build the response
with `new Response(html, { headers: … })` and no explicit status, so
every one of them — the not-found page, the expired page and the group
landing page alike — is sent with the default status 200. -/
def handleLandingPage (db : DB) (inviteCode : String) (now : Int) : LandingResult :=
  match db.groups.find? (fun g => g.inviteCode == inviteCode) with
  | none => { body := .notFoundPage, status := 200 }
  | some group =>
    if groupExpired group.expiresAt now then
      { body := .expiredPage, status := 200 }
    else
      let fetchedMembers := db.members.filter (fun m => m.groupId == group.id)
      { body := .groupPage group.title group.description fetchedMembers.length,
        status := 200 }

/-- Well-formedness of the store, as the id generation of the ORM guarantees
it: every stored id is below the corresponding counter (so a freshly
drawn id collides with no existing row or foreign key). -/
def DB.WF (db : DB) : Prop :=
  (∀ u ∈ db.users, u.id < db.nextUserId) ∧
  (∀ g ∈ db.groups, g.id < db.nextGroupId) ∧
  (∀ m ∈ db.members, m.groupId < db.nextGroupId)

instance (db : DB) : Decidable db.WF := by
  unfold DB.WF; infer_instance

/-! ## Basic lemmas about identity resolution -/

theorem ensureUser_groups (db : DB) (t : String) :
    (ensureUser db t).1.groups = db.groups := by
  unfold ensureUser; split <;> rfl

theorem ensureUser_members (db : DB) (t : String) :
    (ensureUser db t).1.members = db.members := by
  unfold ensureUser; split <;> rfl

theorem ensureUser_nextGroupId (db : DB) (t : String) :
    (ensureUser db t).1.nextGroupId = db.nextGroupId := by
  unfold ensureUser; split <;> rfl

theorem ensureUser_nextMemberId (db : DB) (t : String) :
    (ensureUser db t).1.nextMemberId = db.nextMemberId := by
  unfold ensureUser; split <;> rfl

theorem ensureUser_token (db : DB) (t : String) :
    (ensureUser db t).2.deviceToken = t := by
  unfold ensureUser
  split
  next u h => simpa using List.find?_some h
  next h => rfl

/-- After `ensureUser`, looking the token up again resolves to the very
same user (the freshly inserted row is found by the unique-index query). -/
theorem ensureUser_find_self (db : DB) (t : String) :
    (ensureUser db t).1.users.find? (fun u => u.deviceToken == t)
      = some (ensureUser db t).2 := by
  unfold ensureUser
  split
  next u h => simpa using h
  next h => simp [List.find?_append, h]

/-- Running `ensureUser` on a database already holding the token leaves the
database unchanged. -/
theorem ensureUser_idem (db : DB) (t : String) (u : User)
    (h : db.users.find? (fun x => x.deviceToken == t) = some u) :
    ensureUser db t = (db, u) := by
  unfold ensureUser
  simp [h]

/-- When the token is unseen, `ensureUser` appends exactly one user row
bearing the fresh id and the token. -/
theorem ensureUser_new (db : DB) (t : String)
    (h : db.users.find? (fun x => x.deviceToken == t) = none) :
    ensureUser db t =
      ({ db with users := db.users ++ [{ id := db.nextUserId, deviceToken := t, name := none }],
                 nextUserId := db.nextUserId + 1 },
       { id := db.nextUserId, deviceToken := t, name := none }) := by
  unfold ensureUser
  simp [h]

/-- The expiry rule in logical form: expired exactly when the field is
set to a timestamp strictly below the evaluation time. -/
theorem groupExpired_iff (e : Option Int) (now : Int) :
    groupExpired e now = true ↔ ∃ t, e = some t ∧ t < now := by
  cases e <;> simp [groupExpired]

/-- Get-details on a stored group: 410 when expired, else 200. -/
theorem getGroupDetails_status_of_found (db : DB) (code : String) (now : Int) (g : Group)
    (hfind : db.groups.find? (fun x => x.inviteCode == code) = some g) :
    (getGroupDetails db code now).status
      = if groupExpired g.expiresAt now then 410 else 200 := by
  unfold getGroupDetails
  rw [hfind]
  cases hexp : groupExpired g.expiresAt now <;> simp [hexp, DetailsResult.status]

/-- The landing page on a stored group: the expired document when the
group is expired, else the group document — always with status 200. -/
theorem handleLandingPage_of_found (db : DB) (code : String) (now : Int) (g : Group)
    (hfind : db.groups.find? (fun x => x.inviteCode == code) = some g) :
    handleLandingPage db code now
      = if groupExpired g.expiresAt now then { body := .expiredPage, status := 200 }
        else { body := .groupPage g.title g.description
                         ((db.members.filter (fun m => m.groupId == g.id)).length),
               status := 200 } := by
  unfold handleLandingPage
  rw [hfind]

/-- Join on a stored group with a truthy token: 410 exactly when the
group is expired; otherwise the status is 400 or 200, never 410. -/
theorem joinGroup_status_of_found (db : DB) (code : String) (t : String) (now : Int) (g : Group)
    (ht : t.isEmpty = false)
    (hfind : db.groups.find? (fun x => x.inviteCode == code) = some g) :
    (joinGroup db code (some t) now).status
      = if groupExpired g.expiresAt now then 410
        else if (db.members.find? (fun m =>
              m.userId == (ensureUser db t).2.id && m.groupId == g.id)).isSome
        then 400 else 200 := by
  unfold joinGroup
  simp only [strOptFalsy, ht, Bool.false_eq_true, if_false, Option.getD_some]
  rw [ensureUser_groups, hfind, ensureUser_members]
  cases hexp : groupExpired g.expiresAt now
  · cases hmem : db.members.find? (fun m =>
        m.userId == (ensureUser db t).2.id && m.groupId == g.id) <;>
      simp [hexp, hmem, JoinResult.status]
  · simp [hexp, JoinResult.status]

/-- Inversion of a successful join: the token was truthy, the group was
stored and unexpired, no membership row existed for the pair, and the
handler answered 200 after appending exactly the one new membership row,
with `memberCount` computed from the member list fetched before the
insert. -/
theorem joinGroup_success_inv (db : DB) (code : String) (tok : Option String) (now : Int)
    (db2 : DB) (resp : JoinGroupResponse) (s : Nat)
    (h : joinGroup db code tok now = .success db2 resp s) :
    ∃ t g, tok = some t ∧ t.isEmpty = false ∧
      db.groups.find? (fun x => x.inviteCode == code) = some g ∧
      groupExpired g.expiresAt now = false ∧
      db.members.find? (fun m => m.userId == (ensureUser db t).2.id && m.groupId == g.id)
        = none ∧
      s = 200 ∧
      resp = { groupId := g.id, modelId := g.modelId, title := g.title,
               description := g.description,
               memberCount := (db.members.filter (fun m => m.groupId == g.id)).length + 1 } ∧
      db2 = { (ensureUser db t).1 with
              members := db.members ++
                [{ id := db.nextMemberId, userId := (ensureUser db t).2.id,
                   groupId := g.id, joinedAt := now }],
              nextMemberId := db.nextMemberId + 1 } := by
  unfold joinGroup at h
  cases tok with
  | none => simp [strOptFalsy] at h
  | some t =>
    cases ht : t.isEmpty with
    | true => simp [strOptFalsy, ht] at h
    | false =>
      simp only [strOptFalsy, ht, Bool.false_eq_true, if_false, Option.getD_some] at h
      rw [ensureUser_groups] at h
      cases hg : db.groups.find? (fun x => x.inviteCode == code) with
      | none => rw [hg] at h; exact absurd h (by simp)
      | some g =>
        rw [hg] at h
        simp only [ensureUser_members, ensureUser_nextMemberId] at h
        cases hexp : groupExpired g.expiresAt now with
        | true => rw [hexp] at h; exact absurd h (by simp)
        | false =>
          rw [hexp] at h
          simp only [Bool.false_eq_true, if_false] at h
          cases hmem : db.members.find?
              (fun m => m.userId == (ensureUser db t).2.id && m.groupId == g.id) with
          | some m => rw [hmem] at h; exact absurd h (by simp)
          | none =>
            rw [hmem] at h
            simp only [JoinResult.success.injEq] at h
            obtain ⟨hdb, hresp, hs⟩ := h
            refine ⟨t, g, rfl, ht, rfl, hexp, hmem, hs.symm, hresp.symm, ?_⟩
            simpa [ensureUser_groups] using hdb.symm

/-- Inversion of a successful create: both required fields were truthy,
the allocation loop yielded a code, and the handler answered 201 after
appending one group row and one membership row for the creator. -/
theorem createGroup_success_inv (db : DB) (req : CreateGroupRequest) (now : Int)
    (draws : DrawStream) (fuel : Nat) (db2 : DB) (resp : CreateGroupResponse) (s : Nat)
    (h : createGroup db req now draws fuel = .success db2 resp s) :
    ∃ t mid code,
      req.deviceToken = some t ∧ t.isEmpty = false ∧
      req.modelId = some mid ∧ mid.isEmpty = false ∧
      allocLoop (db.groups.map (fun g => g.inviteCode)) draws 0 fuel = some code ∧
      s = 201 ∧
      resp = { groupId := db.nextGroupId, inviteCode := code, modelId := mid,
               title := req.title, description := req.description,
               expiresAt := computeExpiresAt req.expirationHours now,
               memberCount := 1 } ∧
      db2 = { users := (ensureUser db t).1.users,
              groups := db.groups ++
                [{ id := db.nextGroupId, inviteCode := code, modelId := mid,
                   creatorId := (ensureUser db t).2.id, title := req.title,
                   description := req.description,
                   expiresAt := computeExpiresAt req.expirationHours now }],
              members := db.members ++
                [{ id := db.nextMemberId, userId := (ensureUser db t).2.id,
                   groupId := db.nextGroupId, joinedAt := now }],
              nextUserId := (ensureUser db t).1.nextUserId,
              nextGroupId := db.nextGroupId + 1,
              nextMemberId := db.nextMemberId + 1 } := by
  unfold createGroup at h
  cases hdt : req.deviceToken with
  | none => rw [hdt] at h; simp [strOptFalsy] at h
  | some t =>
    rw [hdt] at h
    cases ht : t.isEmpty with
    | true => simp [strOptFalsy, ht] at h
    | false =>
      cases hm : req.modelId with
      | none => rw [hm] at h; simp [strOptFalsy, ht] at h
      | some mid =>
        rw [hm] at h
        cases hmid : mid.isEmpty with
        | true => simp [strOptFalsy, ht, hmid] at h
        | false =>
          simp only [strOptFalsy, ht, hmid, Bool.or_self, Bool.false_eq_true, if_false,
            Option.getD_some] at h
          rw [ensureUser_groups] at h
          cases halloc : allocLoop (db.groups.map (fun g => g.inviteCode)) draws 0 fuel with
          | none => rw [halloc] at h; exact absurd h (by simp)
          | some code =>
            rw [halloc] at h
            simp only [ensureUser_members, ensureUser_nextGroupId,
              ensureUser_nextMemberId, CreateResult.success.injEq] at h
            obtain ⟨hdb, hresp, hs⟩ := h
            refine ⟨t, mid, code, rfl, ht, rfl, hmid, rfl, hs.symm, hresp.symm, ?_⟩
            rw [← hdb]

/-! ## Concrete fixtures for witnesses and counterexamples -/

/-- The all-zero draw stream: every iteration draws `"aaaaaaaa"`. -/
def draws0 : DrawStream := fun _ _ => 0

def userA : User := { id := 0, deviceToken := "device-a", name := none }

/-- A stored group with no expiry. -/
def groupA : Group :=
  { id := 0, inviteCode := "whsc2xyz", modelId := "model-1", creatorId := 0,
    title := none, description := none, expiresAt := none }

def memberA : GroupMember := { id := 0, userId := 0, groupId := 0, joinedAt := 0 }

/-- A store holding one never-expiring group whose creator is its sole member. -/
def dbA : DB :=
  { users := [userA], groups := [groupA], members := [memberA],
    nextUserId := 1, nextGroupId := 1, nextMemberId := 1 }

/-- A stored group whose `expiresAt` (epoch ms 50) lies in the past of
evaluation time 100. -/
def groupE : Group :=
  { id := 0, inviteCode := "oldcode1", modelId := "model-2", creatorId := 0,
    title := some "party", description := some "old plans", expiresAt := some 50 }

/-- A store holding one expired group. -/
def dbE : DB :=
  { users := [userA], groups := [groupE], members := [memberA],
    nextUserId := 1, nextGroupId := 1, nextMemberId := 1 }

/-- The empty store. -/
def dbEmpty : DB :=
  { users := [], groups := [], members := [],
    nextUserId := 0, nextGroupId := 0, nextMemberId := 0 }

/-- A create request with both required fields and no expiration. -/
def reqA : CreateGroupRequest :=
  { deviceToken := some "device-a", modelId := some "model-1",
    title := none, description := none, expirationHours := none }

/-- A create request with `expirationHours = 0` (falsy in JS). -/
def reqZero : CreateGroupRequest :=
  { deviceToken := some "device-a", modelId := some "model-1",
    title := none, description := none, expirationHours := some 0 }

/-- A create request with `expirationHours = 2`. -/
def reqH : CreateGroupRequest :=
  { deviceToken := some "device-a", modelId := some "model-1",
    title := none, description := none, expirationHours := some 2 }

/-- The group `createGroup dbEmpty reqA 0 draws0 1` stores. -/
def groupCreatedA : Group :=
  { id := 0, inviteCode := "aaaaaaaa", modelId := "model-1", creatorId := 0,
    title := none, description := none, expiresAt := none }

/-- The store `createGroup dbEmpty reqA 0 draws0 1` leaves behind. -/
def dbAfterCreateA : DB :=
  { users := [userA], groups := [groupCreatedA], members := [memberA],
    nextUserId := 1, nextGroupId := 1, nextMemberId := 1 }

/-- The response of `createGroup dbEmpty reqA 0 draws0 1`. -/
def respCreateA : CreateGroupResponse :=
  { groupId := 0, inviteCode := "aaaaaaaa", modelId := "model-1",
    title := none, description := none, expiresAt := none, memberCount := 1 }

/-- The group `createGroup dbEmpty reqH 1000 draws0 1` stores:
`expiresAt = 1000 + 2 * 3600000`. -/
def groupCreatedH : Group :=
  { id := 0, inviteCode := "aaaaaaaa", modelId := "model-1", creatorId := 0,
    title := none, description := none, expiresAt := some 7201000 }

/-- The membership row of that create (joinedAt = 1000). -/
def memberH : GroupMember := { id := 0, userId := 0, groupId := 0, joinedAt := 1000 }

/-- The store `createGroup dbEmpty reqH 1000 draws0 1` leaves behind. -/
def dbAfterCreateH : DB :=
  { users := [userA], groups := [groupCreatedH], members := [memberH],
    nextUserId := 1, nextGroupId := 1, nextMemberId := 1 }

/-- The response of `createGroup dbEmpty reqH 1000 draws0 1`. -/
def respCreateH : CreateGroupResponse :=
  { groupId := 0, inviteCode := "aaaaaaaa", modelId := "model-1",
    title := none, description := none, expiresAt := some 7201000, memberCount := 1 }

/-- The `expiresAt` the response of a create reports, when it succeeded. -/
def CreateResult.respExpiresAt : CreateResult → Option (Option Int)
  | .success _ r _ => some r.expiresAt
  | _ => none

/-- The user created when `"device-b"` first joins `dbA`. -/
def userB : User := { id := 1, deviceToken := "device-b", name := none }

/-- The membership row inserted when `userB` joins `groupA` at time 5. -/
def memberB : GroupMember := { id := 1, userId := 1, groupId := 0, joinedAt := 5 }

/-- The store after `"device-b"` successfully joins `groupA` at time 5. -/
def dbJoinedA : DB :=
  { users := [userA, userB], groups := [groupA], members := [memberA, memberB],
    nextUserId := 2, nextGroupId := 1, nextMemberId := 2 }

/-- The response of that successful join. -/
def respJoinA : JoinGroupResponse :=
  { groupId := 0, modelId := "model-1", title := none, description := none,
    memberCount := 2 }

/-! ## The claims -/

/-- C9: every string returned by the invite-code generator has length
exactly 8 and every one of its characters belongs to the 36-symbol
alphabet of lowercase letters and digits. -/
theorem generateInviteCode_length_and_alphabet (draws : Fin 8 → Fin 36) :
    (generateInviteCode draws).length = 8 ∧
    ∀ c ∈ (generateInviteCode draws).toList, c ∈ inviteChars := by
  constructor
  · simp [generateInviteCode, String.length]
  · intro c hc
    simp only [generateInviteCode, String.toList] at hc
    simp only [List.mem_ofFn, Set.mem_range] at hc
    obtain ⟨i, hi⟩ := hc
    subst hi
    exact List.get_mem inviteChars _ _

/-- C1: for a group stored under the queried invite code, the join path,
the get-details path and the landing-page path all judge it expired
exactly when `expiresAt` is set to a timestamp strictly below the
evaluation time; an unset `expiresAt` is never judged expired at any
evaluation time. -/
theorem expiry_predicate_shared_rule (db : DB) (code : String) (now : Int) (g : Group)
    (hfind : db.groups.find? (fun x => x.inviteCode == code) = some g) :
    ((getGroupDetails db code now).status = 410 ↔ ∃ t, g.expiresAt = some t ∧ t < now) ∧
    (∀ tok : String, tok.isEmpty = false →
      ((joinGroup db code (some tok) now).status = 410 ↔ ∃ t, g.expiresAt = some t ∧ t < now)) ∧
    ((handleLandingPage db code now).body = .expiredPage ↔ ∃ t, g.expiresAt = some t ∧ t < now) ∧
    (g.expiresAt = none → ∀ anytime : Int, groupExpired g.expiresAt anytime = false) := by
  refine ⟨?_, ?_, ?_, ?_⟩
  · rw [getGroupDetails_status_of_found db code now g hfind, ← groupExpired_iff]
    cases hexp : groupExpired g.expiresAt now <;> simp [hexp]
  · intro tok htok
    rw [joinGroup_status_of_found db code tok now g htok hfind, ← groupExpired_iff]
    cases hexp : groupExpired g.expiresAt now
    · cases hmem : (db.members.find? (fun m =>
          m.userId == (ensureUser db tok).2.id && m.groupId == g.id)).isSome <;>
        simp [hexp, hmem]
    · simp [hexp]
  · rw [handleLandingPage_of_found db code now g hfind, ← groupExpired_iff]
    cases hexp : groupExpired g.expiresAt now <;> simp [hexp]
  · intro hnone anytime
    rw [hnone]
    rfl

/-- Status of the join handler, as a function of the conditions of the spec in
their order of evaluation: token falsy, group lookup, expiry, existing
membership. -/
theorem joinGroup_status_eq (db : DB) (code : String) (tok : Option String) (now : Int) :
    (joinGroup db code tok now).status =
      if strOptFalsy tok then 400
      else
        match db.groups.find? (fun x => x.inviteCode == code) with
        | none => 404
        | some g =>
          if groupExpired g.expiresAt now then 410
          else if (db.members.find? (fun m =>
                m.userId == (ensureUser db (tok.getD "")).2.id && m.groupId == g.id)).isSome
          then 400 else 200 := by
  cases tok with
  | none => simp [joinGroup, strOptFalsy, JoinResult.status]
  | some t =>
    cases ht : t.isEmpty with
    | true => simp [joinGroup, strOptFalsy, ht, JoinResult.status]
    | false =>
      simp only [strOptFalsy, ht, Bool.false_eq_true, if_false, Option.getD_some]
      cases hg : db.groups.find? (fun x => x.inviteCode == code) with
      | none =>
        unfold joinGroup
        simp [strOptFalsy, ht, ensureUser_groups, hg, JoinResult.status]
      | some g =>
        exact joinGroup_status_of_found db code t now g ht hg

/-- C5: the join outcome is decided in this order with these statuses —
falsy `deviceToken` → 400; no group with the code → 404; expired → 410;
existing membership → 400; otherwise the one membership row is inserted
and the status is 200. -/
theorem join_check_order_semantics (db : DB) (code : String) (tok : Option String) (now : Int) :
    ((joinGroup db code tok now).status =
      if strOptFalsy tok then 400
      else
        match db.groups.find? (fun x => x.inviteCode == code) with
        | none => 404
        | some g =>
          if groupExpired g.expiresAt now then 410
          else if (db.members.find? (fun m =>
                m.userId == (ensureUser db (tok.getD "")).2.id && m.groupId == g.id)).isSome
          then 400 else 200) ∧
    (∀ db2 resp s, joinGroup db code tok now = .success db2 resp s →
      s = 200 ∧
      db2.members = db.members ++
        [{ id := db.nextMemberId, userId := (ensureUser db (tok.getD "")).2.id,
           groupId := resp.groupId, joinedAt := now }]) := by
  refine ⟨joinGroup_status_eq db code tok now, ?_⟩
  intro db2 resp s h
  obtain ⟨t, g, htok, ht, hg, hexp, hmem, hs, hresp, hdb⟩ :=
    joinGroup_success_inv db code tok now db2 resp s h
  subst htok hs hresp hdb
  exact ⟨rfl, rfl⟩

/-- C7: on a successful join the reported `memberCount` is the number of
membership rows of the group as fetched before the insert, plus one. -/
theorem join_memberCount_prefetched_plus_one (db : DB) (code : String) (tok : Option String)
    (now : Int) (db2 : DB) (resp : JoinGroupResponse) (s : Nat)
    (h : joinGroup db code tok now = .success db2 resp s) :
    resp.memberCount
      = (db.members.filter (fun m => m.groupId == resp.groupId)).length + 1 := by
  obtain ⟨t, g, htok, ht, hg, hexp, hmem, hs, hresp, hdb⟩ :=
    joinGroup_success_inv db code tok now db2 resp s h
  subst hresp
  rfl

/-- Witness for C7: `"device-b"` joins `groupA` (one stored member) and
the response reports `memberCount = 2`. -/
theorem join_memberCount_prefetched_plus_one_witness :
    (joinGroup dbA "whsc2xyz" (some "device-b") 5 = .success dbJoinedA respJoinA 200) ∧
    respJoinA.memberCount
      = (dbA.members.filter (fun m => m.groupId == respJoinA.groupId)).length + 1 :=
  ⟨rfl, join_memberCount_prefetched_plus_one dbA "whsc2xyz" (some "device-b") 5
    dbJoinedA respJoinA 200 rfl⟩

/-- C3: joining the same group twice with the same device token: the
second request answers 400 and inserts no membership row. -/
theorem join_twice_conflict (db : DB) (code : String) (tok : Option String)
    (now1 now2 : Int) (db1 : DB) (resp1 : JoinGroupResponse) (s1 : Nat)
    (h1 : joinGroup db code tok now1 = .success db1 resp1 s1)
    (g : Group) (hg : db.groups.find? (fun x => x.inviteCode == code) = some g)
    (hexp2 : groupExpired g.expiresAt now2 = false) :
    (joinGroup db1 code tok now2).status = 400 ∧
    (joinGroup db1 code tok now2).db.members = db1.members := by
  obtain ⟨t, g0, htok, ht, hg0, hexp1, hmem, hs, hresp, hdb⟩ :=
    joinGroup_success_inv db code tok now1 db1 resp1 s1 h1
  subst htok
  have hgg : g = g0 := Option.some_inj.mp (hg.symm.trans hg0)
  rw [hgg] at hexp2
  have husers : db1.users.find? (fun u => u.deviceToken == t) = some (ensureUser db t).2 := by
    rw [hdb]; exact ensureUser_find_self db t
  have hidem : ensureUser db1 t = (db1, (ensureUser db t).2) :=
    ensureUser_idem db1 t _ husers
  have hgroups : db1.groups = db.groups := by rw [hdb]; exact ensureUser_groups db t
  have hmem2 : db1.members.find?
      (fun m => m.userId == (ensureUser db t).2.id && m.groupId == g0.id)
      = some { id := db.nextMemberId, userId := (ensureUser db t).2.id,
               groupId := g0.id, joinedAt := now1 } := by
    rw [hdb]
    dsimp only
    rw [List.find?_append, hmem]
    simp
  unfold joinGroup
  simp only [strOptFalsy, ht, Bool.false_eq_true, if_false, Option.getD_some, hidem,
    hgroups, hg0, hexp2, hmem2, JoinResult.status, JoinResult.db]
  exact ⟨trivial, trivial⟩

/-- Witness for C3: after `"device-b"` joins `groupA`, a second join with
the same token answers 400 and the member table is unchanged. -/
theorem join_twice_conflict_witness :
    (joinGroup dbJoinedA "whsc2xyz" (some "device-b") 6).status = 400 ∧
    (joinGroup dbJoinedA "whsc2xyz" (some "device-b") 6).db.members = dbJoinedA.members :=
  join_twice_conflict dbA "whsc2xyz" (some "device-b") 5 6 dbJoinedA respJoinA 200
    rfl groupA (by decide) rfl

/-- C10: a join request bearing an unseen (truthy) device token inserts
a `User` row before the group lookup and the eligibility checks, so the
row persists whatever the outcome — also on the 404, 410 and
already-a-member 400 error paths. -/
theorem join_error_paths_create_user (db : DB) (code : String) (t : String) (now : Int)
    (ht : t.isEmpty = false)
    (hnew : db.users.find? (fun u => u.deviceToken == t) = none) :
    (joinGroup db code (some t) now).db.users
      = db.users ++ [{ id := db.nextUserId, deviceToken := t, name := none }] := by
  unfold joinGroup
  simp only [strOptFalsy, ht, Bool.false_eq_true, if_false, Option.getD_some,
    ensureUser_new db t hnew]
  split
  · rfl
  · split
    · rfl
    · split <;> rfl

/-- Witness for C10: an unseen token joined against an unknown invite
code: the request fails 404 yet the user row is inserted. -/
theorem join_error_paths_create_user_witness :
    ("device-c".isEmpty = false) ∧
    (dbA.users.find? (fun u => u.deviceToken == "device-c") = none) ∧
    ((joinGroup dbA "nosuchcd" (some "device-c") 7).status = 404) ∧
    (joinGroup dbA "nosuchcd" (some "device-c") 7).db.users
      = dbA.users ++ [{ id := dbA.nextUserId, deviceToken := "device-c", name := none }] :=
  ⟨rfl, by decide, rfl,
    join_error_paths_create_user dbA "nosuchcd" "device-c" 7 rfl (by decide)⟩

/-- The stored-codes list of the C8 counterexample: exactly the code the
all-zero draw produces. -/
def storedCodesA : List String := [generateInviteCode (fun _ => 0)]

/-- A draw stream that repeats that stored code forever. -/
def drawsRepeatA : DrawStream := fun _ _ => 0

/-- Nontermination of the allocation loop on a store/stream pair: no
amount of fuel makes the loop yield a code. -/
def allocLoopDiverges (codes : List String) (draws : DrawStream) : Prop :=
  ∀ fuel, allocLoop codes draws 0 fuel = none

/-- C8 counterexample: with `"aaaaaaaa"` stored and a draw sequence that
keeps producing `"aaaaaaaa"`, the loop never completes, although the
valid 8-character code `"bbbbbbbb"` is not stored — so "some free code
exists" alone does not make the loop terminate. -/
theorem alloc_loop_nontermination_counterexample :
    allocLoopDiverges storedCodesA drawsRepeatA ∧
    generateInviteCode (fun _ => 1) ∉ storedCodesA ∧
    (generateInviteCode (fun _ => 1)).length = 8 := by
  refine ⟨?_, by decide, by decide⟩
  have key : ∀ fuel k, allocLoop storedCodesA drawsRepeatA k fuel = none := by
    intro fuel
    induction fuel with
    | zero => intro k; rfl
    | succ n ih =>
      intro k
      have hmem : storedCodesA.contains (generateInviteCode (drawsRepeatA k)) = true :=
        (by decide : storedCodesA.contains (generateInviteCode (fun _ => 0)) = true)
      simp only [allocLoop]
      rw [if_pos hmem]
      exact ih (k + 1)
  exact fun fuel => key fuel 0

/-- C8 (amended): the loop retries without bound; whenever it completes
its code was not among the stored codes at the moment of the check; and
it terminates as soon as the draw sequence eventually produces a code
that is not already stored. -/
theorem alloc_loop_unique_and_conditional_termination
    (codes : List String) (draws : DrawStream) :
    (∀ k fuel c, allocLoop codes draws k fuel = some c → c ∉ codes) ∧
    (∀ n, generateInviteCode (draws n) ∉ codes →
      ∃ fuel c, allocLoop codes draws 0 fuel = some c ∧ c ∉ codes) := by
  have sound : ∀ fuel k c, allocLoop codes draws k fuel = some c → c ∉ codes := by
    intro fuel
    induction fuel with
    | zero => intro k c hc; exact absurd hc (by simp [allocLoop])
    | succ n ih =>
      intro k c hc
      simp only [allocLoop] at hc
      by_cases hmem : codes.contains (generateInviteCode (draws k)) = true
      · rw [if_pos hmem] at hc; exact ih (k + 1) c hc
      · rw [if_neg hmem] at hc
        obtain rfl : generateInviteCode (draws k) = c := Option.some_inj.mp hc
        simpa using hmem
  have term : ∀ fuel k, (∃ i, i < fuel ∧ generateInviteCode (draws (k + i)) ∉ codes) →
      ∃ c, allocLoop codes draws k fuel = some c := by
    intro fuel
    induction fuel with
    | zero =>
      rintro k ⟨i, hi, -⟩
      exact absurd hi (Nat.not_lt_zero i)
    | succ n ih =>
      rintro k ⟨i, hi, hfresh⟩
      by_cases hmem : codes.contains (generateInviteCode (draws k)) = true
      · have hstep : ∃ i2, i2 < n ∧ generateInviteCode (draws ((k + 1) + i2)) ∉ codes := by
          cases i with
          | zero => exact absurd (by simpa using hmem) (by simpa using hfresh)
          | succ j =>
            refine ⟨j, by omega, ?_⟩
            have harith : (k + 1) + j = k + (j + 1) := by omega
            rw [harith]; exact hfresh
        obtain ⟨c, hc⟩ := ih (k + 1) hstep
        refine ⟨c, ?_⟩
        simp only [allocLoop]
        rw [if_pos hmem]
        exact hc
      · refine ⟨generateInviteCode (draws k), ?_⟩
        simp only [allocLoop]
        rw [if_neg hmem]
  refine ⟨fun k fuel c hc => sound fuel k c hc, fun n hfresh => ?_⟩
  obtain ⟨c, hc⟩ := term (n + 1) 0 ⟨n, Nat.lt_succ_self n, by simpa using hfresh⟩
  exact ⟨n + 1, c, hc, sound (n + 1) 0 c hc⟩

/-- C6 counterexample: on the expired fixture the landing page renders
the "Invitation Expired" error document, but sends it with HTTP status
200 — not 410 as the claim asserts of every read path. -/
theorem landing_page_expired_status_counterexample :
    dbE.groups.find? (fun x => x.inviteCode == "oldcode1") = some groupE ∧
    groupExpired groupE.expiresAt 100 = true ∧
    handleLandingPage dbE "oldcode1" 100 = { body := .expiredPage, status := 200 } ∧
    (handleLandingPage dbE "oldcode1" 100).status ≠ 410 := by decide

/-- C6 (amended): for an expired stored group — whatever its title and
description — the join endpoint and the get-details endpoint answer 410,
while the HTML landing page renders the "Invitation Expired" error
document with status 200. -/
theorem expired_group_all_paths (db : DB) (code : String) (now : Int) (g : Group)
    (hfind : db.groups.find? (fun x => x.inviteCode == code) = some g)
    (hexp : groupExpired g.expiresAt now = true) :
    (∀ tok : String, tok.isEmpty = false →
      (joinGroup db code (some tok) now).status = 410) ∧
    (getGroupDetails db code now).status = 410 ∧
    handleLandingPage db code now = { body := .expiredPage, status := 200 } := by
  refine ⟨?_, ?_, ?_⟩
  · intro tok htok
    rw [joinGroup_status_of_found db code tok now g htok hfind, hexp]
    simp
  · rw [getGroupDetails_status_of_found db code now g hfind, hexp]
    simp
  · rw [handleLandingPage_of_found db code now g hfind, hexp]
    simp

/-- Witness for C6 (amended) at the expired fixture. -/
theorem expired_group_all_paths_witness :
    (∀ tok : String, tok.isEmpty = false →
      (joinGroup dbE "oldcode1" (some tok) 100).status = 410) ∧
    (getGroupDetails dbE "oldcode1" 100).status = 410 ∧
    handleLandingPage dbE "oldcode1" 100 = { body := .expiredPage, status := 200 } :=
  expired_group_all_paths dbE "oldcode1" 100 groupE (by decide) (by decide)

/-- C2: a successful create leaves the new group with exactly one
membership row — the one of the creator, whose `userId` is the id of the user
resolved from the device token — and reports `memberCount = 1`. -/
theorem create_group_sole_creator_member (db : DB) (req : CreateGroupRequest) (now : Int)
    (draws : DrawStream) (fuel : Nat) (db2 : DB) (resp : CreateGroupResponse) (s : Nat)
    (hwf : db.WF)
    (h : createGroup db req now draws fuel = .success db2 resp s) :
    resp.memberCount = 1 ∧
    ∃ t, req.deviceToken = some t ∧
      db2.members.filter (fun m => m.groupId == resp.groupId)
        = [{ id := db.nextMemberId, userId := (ensureUser db t).2.id,
             groupId := resp.groupId, joinedAt := now }] ∧
      ∃ g ∈ db2.groups, g.id = resp.groupId ∧ g.creatorId = (ensureUser db t).2.id := by
  obtain ⟨t, mid, code, hdt, ht, hm, hmid, halloc, hs, hresp, hdb⟩ :=
    createGroup_success_inv db req now draws fuel db2 resp s h
  subst hresp hdb
  refine ⟨rfl, t, hdt, ?_, ?_⟩
  · dsimp only
    rw [List.filter_append]
    have hnil : db.members.filter (fun m => m.groupId == db.nextGroupId) = [] :=
      List.filter_eq_nil_iff.mpr (fun m hm2 => by
        simpa using Nat.ne_of_lt (hwf.2.2 m hm2))
    rw [hnil]
    simp
  · exact ⟨_, List.mem_append_right _ (List.mem_singleton_self _), rfl, rfl⟩

/-- Witness for C2: creating a group in the empty store stores exactly
the membership row of the creator and reports `memberCount = 1`. -/
theorem create_group_sole_creator_member_witness :
    respCreateA.memberCount = 1 ∧
    ∃ t, reqA.deviceToken = some t ∧
      dbAfterCreateA.members.filter (fun m => m.groupId == respCreateA.groupId)
        = [{ id := dbEmpty.nextMemberId, userId := (ensureUser dbEmpty t).2.id,
             groupId := respCreateA.groupId, joinedAt := 0 }] ∧
      ∃ g ∈ dbAfterCreateA.groups, g.id = respCreateA.groupId ∧
        g.creatorId = (ensureUser dbEmpty t).2.id :=
  create_group_sole_creator_member dbEmpty reqA 0 draws0 1 dbAfterCreateA respCreateA 201
    (by decide) (by decide)

/-- C4 counterexample: `expirationHours = 0` is provided in the request,
yet the stored `expiresAt` is `null` — not `now + 0 hours` as the claim,
read literally, requires (JS truthiness drops the falsy `0`). -/
theorem create_expirationHours_zero_counterexample :
    reqZero.expirationHours = some 0 ∧
    (createGroup dbEmpty reqZero 1000 draws0 1).respExpiresAt = some none ∧
    (createGroup dbEmpty reqZero 1000 draws0 1).respExpiresAt
      ≠ some (some (1000 + 0 * 60 * 60 * 1000)) := by decide

/-- C4 (amended): on a successful create, a provided *nonzero*
`expirationHours` stores `expiresAt = now + hours * 3600000` (sign and
range unchecked); an absent or zero `expirationHours` stores no expiry.
The stored `expiresAt` of the group matches the one of the response. -/
theorem create_expiresAt_computation (db : DB) (req : CreateGroupRequest) (now : Int)
    (draws : DrawStream) (fuel : Nat) (db2 : DB) (resp : CreateGroupResponse) (s : Nat)
    (h : createGroup db req now draws fuel = .success db2 resp s) :
    (∀ hrs : Int, req.expirationHours = some hrs → hrs ≠ 0 →
      resp.expiresAt = some (now + hrs * 60 * 60 * 1000)) ∧
    ((req.expirationHours = none ∨ req.expirationHours = some 0) →
      resp.expiresAt = none) ∧
    (∃ g ∈ db2.groups, g.id = resp.groupId ∧ g.expiresAt = resp.expiresAt) := by
  obtain ⟨t, mid, code, hdt, ht, hm, hmid, halloc, hs, hresp, hdb⟩ :=
    createGroup_success_inv db req now draws fuel db2 resp s h
  subst hresp hdb
  refine ⟨?_, ?_, ⟨_, List.mem_append_right _ (List.mem_singleton_self _), rfl, rfl⟩⟩
  · intro hrs hh hne
    show computeExpiresAt req.expirationHours now = _
    rw [hh]
    simp [computeExpiresAt, hne]
  · intro hcase
    show computeExpiresAt req.expirationHours now = none
    rcases hcase with hnone | hzero
    · rw [hnone]; rfl
    · rw [hzero]; rfl

/-- Witness for C4 (amended): creating with `expirationHours = 2` at
time 1000 stores and reports `expiresAt = 7201000`. -/
theorem create_expiresAt_computation_witness :
    (∀ hrs : Int, reqH.expirationHours = some hrs → hrs ≠ 0 →
      respCreateH.expiresAt = some (1000 + hrs * 60 * 60 * 1000)) ∧
    ((reqH.expirationHours = none ∨ reqH.expirationHours = some 0) →
      respCreateH.expiresAt = none) ∧
    (∃ g ∈ dbAfterCreateH.groups, g.id = respCreateH.groupId ∧
      g.expiresAt = respCreateH.expiresAt) :=
  create_expiresAt_computation dbEmpty reqH 1000 draws0 1 dbAfterCreateH respCreateH 201
    (by decide)

/-- Witness for C1 at the expired fixture: the stored group `groupE`
(`expiresAt = 50`) evaluated at time 100. -/
theorem expiry_predicate_shared_rule_witness :
    ((getGroupDetails dbE "oldcode1" 100).status = 410 ↔
      ∃ t, groupE.expiresAt = some t ∧ t < 100) ∧
    (∀ tok : String, tok.isEmpty = false →
      ((joinGroup dbE "oldcode1" (some tok) 100).status = 410 ↔
        ∃ t, groupE.expiresAt = some t ∧ t < 100)) ∧
    ((handleLandingPage dbE "oldcode1" 100).body = .expiredPage ↔
      ∃ t, groupE.expiresAt = some t ∧ t < 100) ∧
    (groupE.expiresAt = none → ∀ anytime : Int, groupExpired groupE.expiresAt anytime = false) :=
  expiry_predicate_shared_rule dbE "oldcode1" 100 groupE (by decide)

end CocoPik
